import Mathlib

/-!
Verification development for the cluster helper of this repository
(src/hpc.py and src/main_cluster.py). Strings are modelled as `List Char`.
Each definition mirrors one Python function of the source; filesystem and
environment lookups are passed in as explicit parameters.
-/

/-- Backtick character, written via its code point. -/
def btChar : Char := Char.ofNat 96

/-- Safe characters of shlex.quote: the Python unsafe-character regex
(with the ASCII flag) finds nothing, i.e. every character is an ASCII
alphanumeric, an underscore, or one of `@ % + = : , .` slash dash. -/
def isSafeChar (c : Char) : Bool :=
  c.isAlphanum ||
    decide (c = '_' ∨ c = '@' ∨ c = '%' ∨ c = '+' ∨ c = '=' ∨ c = ':' ∨
      c = ',' ∨ c = '.' ∨ c = '/' ∨ c = '-')

/-- Model of Python `s.replace("'", "'\"'\"'")`: each single quote becomes
the five characters quote, double quote, quote, double quote, quote. -/
def quoteReplace : List Char → List Char
  | [] => []
  | c :: rest =>
    if c = '\'' then
      '\'' :: '"' :: '\'' :: '"' :: '\'' :: quoteReplace rest
    else
      c :: quoteReplace rest

/-- Model of Python shlex.quote: empty strings become a pair of single
quotes, strings of safe characters pass through, everything else is
wrapped in single quotes with embedded quotes replaced. -/
def shlexQuote (s : List Char) : List Char :=
  if s.isEmpty then ['\'', '\'']
  else if s.all isSafeChar then s
  else '\'' :: (quoteReplace s ++ ['\''])

/-- Shell word-splitting whitespace. -/
def isShellSpace (c : Char) : Bool := decide (c = ' ' ∨ c = '\t' ∨ c = '\n')

/-- Lexing mode of the POSIX-shell word splitter: outside quotes, inside
single quotes, inside double quotes. -/
inductive LexMode
  | norm
  | single
  | double
deriving DecidableEq

/-- One-pass POSIX shell word splitter used to state the quoting
round-trip. `cur` is the reversed accumulator of the current word and
`started` records whether a word is in progress (so that quoted empty
words are kept). Constructs whose expansion depends on shell state
(parameter/command expansion, backslash escapes) make the split fail,
so a `some` result is an exact list of literal words. -/
def lexRun : List Char → LexMode → List Char → Bool → Option (List (List Char))
  | [], .norm, cur, started => if started then some [cur.reverse] else some []
  | [], .single, _, _ => none
  | [], .double, _, _ => none
  | c :: rest, .norm, cur, started =>
    if isShellSpace c then
      if started then
        (lexRun rest .norm [] false).map (fun ts => cur.reverse :: ts)
      else
        lexRun rest .norm [] false
    else if c = '\'' then lexRun rest .single cur started
    else if c = '"' then lexRun rest .double cur started
    else if c = '$' ∨ c = btChar ∨ c = '\\' then none
    else lexRun rest .norm (c :: cur) true
  | c :: rest, .single, cur, started =>
    if c = '\'' then lexRun rest .norm cur true
    else lexRun rest .single (c :: cur) started
  | c :: rest, .double, cur, started =>
    if c = '"' then lexRun rest .norm cur true
    else if c = '$' ∨ c = btChar ∨ c = '\\' then none
    else lexRun rest .double (c :: cur) started

/-- Split a command string into its literal words, as a POSIX shell would. -/
def shellParse (s : List Char) : Option (List (List Char)) :=
  lexRun s .norm [] false

/-- Model of Python `" ".join`. -/
def joinSpace : List (List Char) → List Char
  | [] => []
  | [p] => p
  | p :: q :: ps => p ++ ' ' :: joinSpace (q :: ps)

/-- A command fragment `u` is a unit for the word `t` when the splitter
reads it as exactly the word `t`, both before a separating space and at
the end of the input. -/
def UnitFor (u t : List Char) : Prop :=
  (∀ rest, lexRun (u ++ (' ' :: rest)) .norm [] false =
      (lexRun rest .norm [] false).map (fun ts => t :: ts)) ∧
    lexRun u .norm [] false = some [t]

/-- Decimal digit character for a value below ten. -/
def digitChar (d : Nat) : Char := Char.ofNat (48 + d)

/-- Fuel-driven decimal rendering of a natural number (most significant
digit first), modelling the Python formatting of a non-negative int. -/
def natCharsAux : Nat → Nat → List Char
  | 0, _ => []
  | fuel + 1, n =>
    if n < 10 then [digitChar n]
    else natCharsAux fuel (n / 10) ++ [digitChar (n % 10)]

/-- Decimal rendering of a natural number. -/
def natChars (n : Nat) : List Char := natCharsAux (n + 1) n

/-- Model of Python f-string rendering of an int (a leading minus sign
for negative values, decimal digits otherwise). -/
def intChars (i : Int) : List Char :=
  if i < 0 then '-' :: natChars i.natAbs else natChars i.toNat

/-- Truthiness of an optional string, as Python sees it: present and
non-empty. -/
def truthyS : Option (List Char) → Bool
  | some v => !v.isEmpty
  | none => false

/-- A validated cluster profile, as produced by load_config: the five
mandatory fields plus the optional fields read by the helpers. -/
structure ClusterCfg where
  host : List Char
  user : List Char
  default_partition : List Char
  default_ntasks : Int
  default_cpus_per_task : Int
  account : Option (List Char)
  default_time : Option (List Char)
  mem : Option (List Char)
  gpus : Option (List Char)
  ssh_key : Option (List Char)
  pre_commands : Option (List (List Char))
  workdir : Option (List Char)
deriving DecidableEq

/-- Per-invocation resource overrides collected from the CLI flags.
Absent flags are `none`; argparse never produces them otherwise. -/
structure Overrides where
  partition : Option (List Char)
  ntasks : Option Int
  cpus_per_task : Option Int
  time : Option (List Char)
  account : Option (List Char)
  mem : Option (List Char)
  gpus : Option (List Char)
deriving DecidableEq

/-- Overrides record with every field absent. -/
def emptyOverrides : Overrides :=
  { partition := none, ntasks := none, cpus_per_task := none, time := none,
    account := none, mem := none, gpus := none }

/-- Line 75 of hpc.py: `overrides.get("partition") or cfg["default_partition"]`
(the Python `or` falls through on falsy values, i.e. `None` and the empty
string). -/
def effPartition (cfg : ClusterCfg) (ov : Overrides) : List Char :=
  if truthyS ov.partition then ov.partition.getD [] else cfg.default_partition

/-- Line 76 of hpc.py: `int(overrides.get("ntasks") or cfg["default_ntasks"])`;
the integer 0 is falsy in Python, so a 0 override falls through. -/
def effNtasks (cfg : ClusterCfg) (ov : Overrides) : Int :=
  match ov.ntasks with
  | some n => if n = 0 then cfg.default_ntasks else n
  | none => cfg.default_ntasks

/-- Line 77 of hpc.py, the cpus-per-task analogue of `effNtasks`. -/
def effCpus (cfg : ClusterCfg) (ov : Overrides) : Int :=
  match ov.cpus_per_task with
  | some n => if n = 0 then cfg.default_cpus_per_task else n
  | none => cfg.default_cpus_per_task

/-- Line 78 of hpc.py: `overrides.get("account") or cfg.get("account") or ""`. -/
def effAccount (cfg : ClusterCfg) (ov : Overrides) : List Char :=
  if truthyS ov.account then ov.account.getD []
  else if truthyS cfg.account then cfg.account.getD []
  else []

/-- Line 79 of hpc.py: `overrides.get("time") or cfg.get("default_time") or ""`. -/
def effTime (cfg : ClusterCfg) (ov : Overrides) : List Char :=
  if truthyS ov.time then ov.time.getD []
  else if truthyS cfg.default_time then cfg.default_time.getD []
  else []

/-- Line 80 of hpc.py: `overrides.get("mem") or cfg.get("mem") or ""`. -/
def effMem (cfg : ClusterCfg) (ov : Overrides) : List Char :=
  if truthyS ov.mem then ov.mem.getD []
  else if truthyS cfg.mem then cfg.mem.getD []
  else []

/-- Line 81 of hpc.py: `overrides.get("gpus") or cfg.get("gpus") or ""`. -/
def effGpus (cfg : ClusterCfg) (ov : Overrides) : List Char :=
  if truthyS ov.gpus then ov.gpus.getD []
  else if truthyS cfg.gpus then cfg.gpus.getD []
  else []

/-- Lines 87-94 of hpc.py: an optional srun flag contributes the flag and
the quoted value when the resolved value is non-empty, nothing otherwise. -/
def optFlag (flag v : List Char) : List (List Char) :=
  if v.isEmpty then [] else [flag, shlexQuote v]

/-- Word-level counterpart of `optFlag` carrying the unquoted value, used
to state what a shell reads back from the composed command. -/
def optTok (flag v : List Char) : List (List Char) :=
  if v.isEmpty then [] else [flag, v]

/-- Lines 83-94 of hpc.py: the parts list of `_compose_srun`, in order:
srun, the pty flag (interactive only), partition, ntasks, cpus-per-task,
then the optional account, time, mem and gpus flags. -/
def composeSrunParts (cfg : ClusterCfg) (ov : Overrides) (interactive : Bool) :
    List (List Char) :=
  ("srun".toList :: (if interactive then ["--pty".toList] else []))
  ++ ["-p".toList, shlexQuote (effPartition cfg ov),
      "--ntasks=".toList ++ intChars (effNtasks cfg ov),
      "--cpus-per-task=".toList ++ intChars (effCpus cfg ov)]
  ++ optFlag "--account".toList (effAccount cfg ov)
  ++ optFlag "--time".toList (effTime cfg ov)
  ++ optFlag "--mem".toList (effMem cfg ov)
  ++ optFlag "--gpus".toList (effGpus cfg ov)

/-- Line 95 of hpc.py: `_compose_srun` returns the space-join of its parts. -/
def composeSrun (cfg : ClusterCfg) (ov : Overrides) (interactive : Bool) :
    List Char :=
  joinSpace (composeSrunParts cfg ov interactive)

/-- The words a POSIX shell reads back from the composed srun command:
the same parts with the user-originated values unquoted. -/
def composeTokens (cfg : ClusterCfg) (ov : Overrides) (interactive : Bool) :
    List (List Char) :=
  ("srun".toList :: (if interactive then ["--pty".toList] else []))
  ++ ["-p".toList, effPartition cfg ov,
      "--ntasks=".toList ++ intChars (effNtasks cfg ov),
      "--cpus-per-task=".toList ++ intChars (effCpus cfg ov)]
  ++ optTok "--account".toList (effAccount cfg ov)
  ++ optTok "--time".toList (effTime cfg ov)
  ++ optTok "--mem".toList (effMem cfg ov)
  ++ optTok "--gpus".toList (effGpus cfg ov)

/-- The separator Python writes between pre-commands. -/
def ampSep : List Char := " && ".toList

/-- Model of `" && ".join(pre)`. -/
def joinAmp (l : List (List Char)) : List Char := List.intercalate ampSep l

/-- Lines 69-72 of hpc.py, `_prepend_pre_commands`: a falsy sequence
(absent or empty) contributes the empty string; otherwise the commands
are joined with the conjunction and a trailing conjunction is appended. -/
def prependPreCommands : Option (List (List Char)) → List Char
  | none => []
  | some [] => []
  | some l => joinAmp l ++ ampSep

/-- Line 117 of hpc.py: the working-directory change of `remote_run`,
present only when a truthy workdir is given. -/
def cdString : Option (List Char) → List Char
  | none => []
  | some w => if w.isEmpty then [] else "cd ".toList ++ shlexQuote w ++ ampSep

/-- Lines 114-118 of hpc.py: the remote command string `remote_run` sends,
namely cd-part, pre-commands part, the non-interactive srun command, a
space and the payload. -/
def remoteRunCmd (cfg : ClusterCfg) (command : List Char) (ov : Overrides)
    (workdir : Option (List Char)) : List Char :=
  cdString workdir ++ prependPreCommands cfg.pre_commands
    ++ composeSrun cfg ov false ++ ' ' :: command

/-- Lines 57-67 of hpc.py, `_build_ssh_base`. `expandUser` models
`str(Path(x).expanduser())` and `fileExists` models `.exists()`; both are
passed in because they read the local filesystem. A configured identity
file that exists forces key-based batch mode; otherwise password-capable
negotiation is enabled. The pty flag is appended exactly when requested. -/
def buildSshBase (host user : List Char) (identity : Option (List Char))
    (pty : Bool) (expandUser : List Char → List Char)
    (fileExists : List Char → Bool) : List (List Char) :=
  ("ssh".toList ::
    (if truthyS identity && fileExists (expandUser (identity.getD [])) then
      ["-i".toList, expandUser (identity.getD []),
       "-o".toList, "BatchMode=yes".toList]
    else
      ["-o".toList, "BatchMode=no".toList, "-o".toList,
       "PreferredAuthentications=publickey,keyboard-interactive,password".toList]))
  ++ (if pty then ["-tt".toList] else [])
  ++ [user ++ '@' :: host]

/-- Lines 101-105 of hpc.py, `ssh_run`: the full argv, the remote command
wrapped in a login shell with the whole command quoted once. -/
def sshRunArgv (host user cmd : List Char) (identity : Option (List Char))
    (pty : Bool) (expandUser : List Char → List Char)
    (fileExists : List Char → Bool) : List (List Char) :=
  buildSshBase host user identity pty expandUser fileExists
    ++ ["bash -lc ".toList ++ shlexQuote cmd]

/-- Lines 114-119 of hpc.py, `remote_run` as the argv it hands to the
transport; the pty flag is fixed to false on this path. -/
def remoteRunArgv (cfg : ClusterCfg) (command : List Char) (ov : Overrides)
    (workdir : Option (List Char)) (expandUser : List Char → List Char)
    (fileExists : List Char → Bool) : List (List Char) :=
  sshRunArgv cfg.host cfg.user (remoteRunCmd cfg command ov workdir)
    cfg.ssh_key false expandUser fileExists

/-- The batch-header counterpart of `optFlag` (lines 225-232 of hpc.py):
one directive line per non-empty resolved value, the value unquoted. -/
def optHeader (pre v : List Char) : List (List Char) :=
  if v.isEmpty then [] else [pre ++ v]

/-- Lines 215-232 of hpc.py: the SBATCH directive block built by
`submit_app_job` from the same resolved fields as `_compose_srun`
(partition quoted, the optional values interpolated directly). -/
def sbatchHeader (cfg : ClusterCfg) (ov : Overrides) : List (List Char) :=
  ["#SBATCH -p ".toList ++ shlexQuote (effPartition cfg ov),
   "#SBATCH --ntasks=".toList ++ intChars (effNtasks cfg ov),
   "#SBATCH --cpus-per-task=".toList ++ intChars (effCpus cfg ov)]
  ++ optHeader "#SBATCH --account=".toList (effAccount cfg ov)
  ++ optHeader "#SBATCH --time=".toList (effTime cfg ov)
  ++ optHeader "#SBATCH --mem=".toList (effMem cfg ov)
  ++ optHeader "#SBATCH --gpus=".toList (effGpus cfg ov)

/-- Replace the file name of a path by another name, modelling
`Path.with_name`: everything up to and including the last slash is kept. -/
def withName (p n : List Char) : List Char :=
  (p.reverse.dropWhile (fun c => !(c == '/'))).reverse ++ n

/-- Lines 19-26 of hpc.py, `_clusters_yaml_path`. The environment variable,
path expansion, resolution, the current directory, the script path and the
existence test are explicit parameters since they read the environment.
A truthy environment value wins outright; else the clusters.yml next to
the current directory wins if it exists; else the one next to the script. -/
def clustersYamlPath (envVar : Option (List Char))
    (expand resolve : List Char → List Char) (cwd scriptFile : List Char)
    (pathExists : List Char → Bool) : List Char :=
  let cwdCand := cwd ++ '/' :: "clusters.yml".toList
  let fallback :=
    if pathExists cwdCand then resolve cwdCand
    else withName (resolve scriptFile) "clusters.yml".toList
  match envVar with
  | some e => if e.isEmpty then fallback else resolve (expand e)
  | none => fallback

/-- A scalar or list value as it comes out of the YAML mapping. -/
inductive YVal
  | str (v : List Char)
  | int (v : Int)
  | nullv
  | list (vs : List (List Char))
deriving DecidableEq

/-- A raw profile record: the YAML mapping for one cluster name. -/
abbrev RawCfg : Type := List (List Char × YVal)

/-- Lookup in an association list keyed by strings. -/
def lookupAssoc {α : Type} : List (List Char × α) → List Char → Option α
  | [], _ => none
  | (k, v) :: rest, key => if k = key then some v else lookupAssoc rest key

/-- The five mandatory keys of line 12 of hpc.py. -/
def requiredKeys : List (List Char) :=
  ["host".toList, "user".toList, "default_partition".toList,
   "default_ntasks".toList, "default_cpus_per_task".toList]

/-- Line 29 of hpc.py: a required key counts as missing when it is absent
or its value is the empty string or None. -/
def fieldMissing (raw : RawCfg) (k : List Char) : Bool :=
  match lookupAssoc raw k with
  | none => true
  | some (.str s) => s.isEmpty
  | some .nullv => true
  | some _ => false

/-- Digit run accumulator for integer parsing. -/
def parseDigitsAux : List Char → Nat → Option Nat
  | [], acc => some acc
  | c :: r, acc =>
    if c.isDigit then parseDigitsAux r (10 * acc + (c.toNat - 48)) else none

/-- Parse a non-empty run of decimal digits. -/
def parseDigits : List Char → Option Nat
  | [] => none
  | l => parseDigitsAux l 0

/-- Model of Python `int(s)` on a string: an optional sign followed by
decimal digits. (The whitespace and underscore tolerance of the Python
parser is not modelled; no claim depends on it.) -/
def pyIntOfStr (s : List Char) : Option Int :=
  match s with
  | '+' :: rest => (parseDigits rest).map (fun n => (n : Int))
  | '-' :: rest => (parseDigits rest).map (fun n => -(n : Int))
  | _ => (parseDigits s).map (fun n => (n : Int))

/-- Model of Python `int(v)` on a YAML value: ints pass through, strings
are parsed, None and lists raise. -/
def pyIntOfYVal : YVal → Option Int
  | .int n => some n
  | .str s => pyIntOfStr s
  | .nullv => none
  | .list _ => none

/-- Render a YAML scalar as the string the later f-strings would produce.
(Container values in scalar positions are representation glue and render
empty; no claim depends on them.) -/
def yvalStr : YVal → List Char
  | .str s => s
  | .int n => intChars n
  | .nullv => []
  | .list _ => []

/-- Optional string field extraction via `cfg.get(k)`: a present scalar
renders to its string, an explicit None behaves like an absent key. -/
def optStr (raw : RawCfg) (k : List Char) : Option (List Char) :=
  match lookupAssoc raw k with
  | none => none
  | some .nullv => none
  | some v => some (yvalStr v)

/-- Element-wise expansion of lines 49-53 of hpc.py: strings are expanded,
lists element-wise, other values untouched. -/
def expandY (expand : List Char → List Char) : YVal → YVal
  | .str s => .str (expand s)
  | .list l => .list (l.map expand)
  | v => v

/-- Expansion pass over a raw profile record. -/
def expandRaw (expand : List Char → List Char) (raw : RawCfg) : RawCfg :=
  raw.map (fun kv => (kv.1, expandY expand kv.2))

/-- The error taxonomy of profile loading. `configNotFound` models the
FileNotFoundError of line 43, `profileNotFound` the KeyError of line 47,
`invalidProfile` the ValueError raised by `_validate_cfg`. -/
inductive LoadErr
  | configNotFound
  | profileNotFound
  | invalidProfile
deriving DecidableEq

/-- Build the validated profile record once the mandatory checks and the
two integer conversions succeeded. (The None-to-empty normalisation of
default_time on lines 37-38 is behaviourally the identity here because an
explicit None and the empty string are both falsy where the field is read.) -/
def buildCfg (raw : RawCfg) (n1 n2 : Int) : ClusterCfg :=
  { host := yvalStr ((lookupAssoc raw "host".toList).getD .nullv),
    user := yvalStr ((lookupAssoc raw "user".toList).getD .nullv),
    default_partition :=
      yvalStr ((lookupAssoc raw "default_partition".toList).getD .nullv),
    default_ntasks := n1,
    default_cpus_per_task := n2,
    account := optStr raw "account".toList,
    default_time := optStr raw "default_time".toList,
    mem := optStr raw "mem".toList,
    gpus := optStr raw "gpus".toList,
    ssh_key := optStr raw "ssh_key".toList,
    pre_commands :=
      match lookupAssoc raw "pre_commands".toList with
      | some (.list l) => some l
      | _ => none,
    workdir := optStr raw "workdir".toList }

/-- Lines 40-55 of hpc.py, `load_config`, over an abstract configuration
source: `none` models an absent clusters.yml, `some clusters` the parsed
mapping under the top-level clusters key (a file without that key is the
empty mapping, which fails the same lookup). Expansion is applied to the
found record, then the validation of `_validate_cfg` runs: mandatory keys
first, then the two integer conversions. -/
def loadConfig (expand : List Char → List Char)
    (src : Option (List (List Char × RawCfg))) (name : List Char) :
    Except LoadErr ClusterCfg :=
  match src with
  | none => .error .configNotFound
  | some clusters =>
    match lookupAssoc clusters name with
    | none => .error .profileNotFound
    | some raw0 =>
      let raw := expandRaw expand raw0
      if requiredKeys.any (fun k => fieldMissing raw k) then
        .error .invalidProfile
      else
        match pyIntOfYVal ((lookupAssoc raw "default_ntasks".toList).getD .nullv),
            pyIntOfYVal ((lookupAssoc raw "default_cpus_per_task".toList).getD .nullv) with
        | some n1, some n2 => .ok (buildCfg raw n1 n2)
        | some _, none => .error .invalidProfile
        | none, _ => .error .invalidProfile

/-- The parsed CLI arguments of main_cluster.py (lines 23-44), with the
argparse defaults: port 8501, empty model, app main.py, empty workdir. -/
structure Args where
  cluster : Option (List Char)
  interactive : Bool
  interactive_app : Bool
  submit_app : Bool
  partition : Option (List Char)
  ntasks : Option Int
  cpus_per_task : Option Int
  time : Option (List Char)
  account : Option (List Char)
  mem : Option (List Char)
  gpus : Option (List Char)
  port : Int
  model : List Char
  app : List Char
  workdir : List Char
  command : List (List Char)
deriving DecidableEq

/-- Lines 46-55 of main_cluster.py, `_collect_overrides`. -/
def collectOverrides (a : Args) : Overrides :=
  { partition := a.partition, ntasks := a.ntasks,
    cpus_per_task := a.cpus_per_task, time := a.time, account := a.account,
    mem := a.mem, gpus := a.gpus }

/-- Line 88 of main_cluster.py: CLI workdir if truthy, else the profile
workdir if truthy, else none. -/
def resolveWorkdir (aw : List Char) (cw : Option (List Char)) :
    Option (List Char) :=
  if !aw.isEmpty then some aw
  else match cw with
    | some w => if w.isEmpty then none else some w
    | none => none

/-- Strip a single leading literal double-dash separator from the
remainder arguments (lines 58-59 and 103-104 of main_cluster.py). -/
def stripSeparator (cmd : List (List Char)) : List (List Char) :=
  match cmd with
  | d :: rest => if d = "--".toList then rest else cmd
  | [] => []

/-- What one invocation of main resolves to before any process is
spawned: a local exit with a code, a local child process, or one of the
four remote shapes, each carrying the data handed to the hpc helpers.
A transport call happens only in the four remote shapes. -/
inductive Outcome
  | exit (code : Int)
  | localExec (argv : List (List Char))
  | interactiveApp (cfg : ClusterCfg) (ov : Overrides) (port : Int)
      (model : Option (List Char)) (app : List Char)
      (workdir : Option (List Char))
  | submitApp (cfg : ClusterCfg) (ov : Overrides) (port : Int)
      (model : Option (List Char)) (app : List Char)
      (workdir : Option (List Char))
  | interactiveShell (cfg : ClusterCfg) (ov : Overrides)
  | remotePlain (cfg : ClusterCfg) (command : List Char) (ov : Overrides)
      (workdir : Option (List Char))
deriving DecidableEq

/-- Lines 57-62 of main_cluster.py, `_stream_local` up to the spawn: an
empty command (after separator stripping) is a usage error with exit
code 2, otherwise the literal argv is run locally. -/
def streamLocalOutcome (command : List (List Char)) : Outcome :=
  let c := stripSeparator command
  if c.isEmpty then .exit 2 else .localExec c

/-- Lines 73-109 of main_cluster.py, `main`, as a pure dispatch: no
cluster routes to the local path; a profile-load failure exits 1 before
any remote activity; both app modes together exit 2; otherwise the single
selected remote shape is produced; an empty remaining command in the
plain-remote path exits 2, else the quoted payload is sent. -/
def mainModel (expand : List Char → List Char)
    (src : Option (List (List Char × RawCfg))) (a : Args) : Outcome :=
  match a.cluster with
  | none => streamLocalOutcome a.command
  | some cname =>
    match loadConfig expand src cname with
    | .error _ => .exit 1
    | .ok cfg =>
      let ov := collectOverrides a
      let wd := resolveWorkdir a.workdir cfg.workdir
      if a.interactive_app && a.submit_app then .exit 2
      else if a.interactive_app then
        .interactiveApp cfg ov a.port
          (if a.model.isEmpty then none else some a.model) a.app wd
      else if a.submit_app then
        .submitApp cfg ov a.port
          (if a.model.isEmpty then none else some a.model) a.app wd
      else if a.interactive then .interactiveShell cfg ov
      else
        let cmd := stripSeparator a.command
        if cmd.isEmpty then .exit 2
        else .remotePlain cfg (joinSpace (cmd.map shlexQuote)) ov wd

/-- The final process exit code given which executables resolve on PATH
and what a successfully launched child returns. The local branch mirrors
the FileNotFoundError handler of lines 66-68 of main_cluster.py (127);
the remote branches mirror `_run_streaming` (lines 97-99 of hpc.py), which
has no such handler, so a missing ssh executable raises an uncaught
FileNotFoundError and the interpreter terminates with code 1. -/
def processExit (avail : List Char → Bool) (childExit : Outcome → Int) :
    Outcome → Int
  | .exit c => c
  | .localExec argv =>
    if avail (argv.headD []) then childExit (.localExec argv) else 127
  | o => if avail "ssh".toList then childExit o else 1

/-- Concrete profile of the end-to-end scenario: host h, user u,
partition cpu, one task, two cpus per task, nothing else. -/
def cfgEnd : ClusterCfg :=
  { host := "h".toList, user := "u".toList,
    default_partition := "cpu".toList, default_ntasks := 1,
    default_cpus_per_task := 2, account := none, default_time := none,
    mem := none, gpus := none, ssh_key := none, pre_commands := none,
    workdir := none }

/-- CLI arguments with every flag at its argparse default. -/
def argsBase : Args :=
  { cluster := none, interactive := false, interactive_app := false,
    submit_app := false, partition := none, ntasks := none,
    cpus_per_task := none, time := none, account := none, mem := none,
    gpus := none, port := 8501, model := [], app := "main.py".toList,
    workdir := [], command := [] }

/-- A raw profile record that passes validation. -/
def rawOk : RawCfg :=
  [("host".toList, YVal.str "h".toList),
   ("user".toList, YVal.str "u".toList),
   ("default_partition".toList, YVal.str "p".toList),
   ("default_ntasks".toList, YVal.int 1),
   ("default_cpus_per_task".toList, YVal.int 1)]

/-- The profile `loadConfig` builds from `rawOk`. -/
def cfgOk : ClusterCfg :=
  { host := "h".toList, user := "u".toList,
    default_partition := "p".toList, default_ntasks := 1,
    default_cpus_per_task := 1, account := none, default_time := none,
    mem := none, gpus := none, ssh_key := none, pre_commands := none,
    workdir := none }

/-- A configuration source holding one valid profile named c. -/
def srcOk : Option (List (List Char × RawCfg)) := some [("c".toList, rawOk)]

/-- A raw profile with the host key absent. -/
def rawNoHost : RawCfg :=
  [("user".toList, YVal.str "u".toList),
   ("default_partition".toList, YVal.str "p".toList),
   ("default_ntasks".toList, YVal.int 1),
   ("default_cpus_per_task".toList, YVal.int 1)]

/-- A raw profile whose ntasks value does not parse as an integer. -/
def rawBadInt : RawCfg :=
  [("host".toList, YVal.str "h".toList),
   ("user".toList, YVal.str "u".toList),
   ("default_partition".toList, YVal.str "p".toList),
   ("default_ntasks".toList, YVal.str "abc".toList),
   ("default_cpus_per_task".toList, YVal.int 1)]

/-- Profile used to exercise the precedence claims: defaults for every
mandatory field, an account and a memory default, no time and no gpus. -/
def cfgW : ClusterCfg :=
  { host := "h".toList, user := "u".toList,
    default_partition := "A".toList, default_ntasks := 1,
    default_cpus_per_task := 2, account := some "acc".toList,
    default_time := none, mem := some "8G".toList, gpus := none,
    ssh_key := none, pre_commands := none, workdir := none }

/-- Overrides with every field set. -/
def ovA : Overrides :=
  { partition := some "B".toList, ntasks := some 4, cpus_per_task := some 5,
    time := some "01:00".toList, account := some "ov".toList,
    mem := some "16G".toList, gpus := some "gpu:1".toList }

/-- The end-to-end profile extended with two pre-commands. -/
def cfgPre : ClusterCfg :=
  { cfgEnd with pre_commands := some ["module load x".toList, "source env".toList] }

/-- Arguments selecting a cluster and both app modes at once. -/
def argsBoth : Args :=
  { argsBase with
    cluster := some "c".toList
    interactive_app := true
    submit_app := true }

/-- Arguments selecting a cluster and a plain remote command. -/
def argsEcho : Args :=
  { argsBase with
    cluster := some "c".toList
    command := ["--".toList, "echo".toList] }

/-! ## Lexer lemmas -/

/-- Safe characters are neither whitespace nor any shell metacharacter
the splitter treats specially. -/
theorem safe_not_special (c : Char) (h : isSafeChar c = true) :
    isShellSpace c = false ∧ ¬(c = '\'') ∧ ¬(c = '"') ∧ ¬(c = '$') ∧
      ¬(c = btChar) ∧ ¬(c = '\\') := by
  refine ⟨?_, ?_, ?_, ?_, ?_, ?_⟩
  · simp only [isShellSpace, decide_eq_false_iff_not]
    rintro (rfl | rfl | rfl) <;> exact absurd h (by decide)
  all_goals intro hEq
  all_goals subst hEq
  all_goals exact absurd h (by decide)

/-- Reading a safe character in normal mode extends the current word. -/
theorem lexRun_safe_step (c : Char) (rest cur : List Char) (b : Bool)
    (h : isSafeChar c = true) :
    lexRun (c :: rest) .norm cur b = lexRun rest .norm (c :: cur) true := by
  obtain ⟨h1, h2, h3, h4, h5, h6⟩ := safe_not_special c h
  simp [lexRun, h1, h2, h3, h4, h5, h6]

theorem lexRun_nil_started (cur : List Char) :
    lexRun [] .norm cur true = some [cur.reverse] := rfl

theorem lexRun_norm_space_started (r cur : List Char) :
    lexRun (' ' :: r) .norm cur true =
      (lexRun r .norm [] false).map (fun ts => cur.reverse :: ts) := rfl

theorem lexRun_norm_sq (r cur : List Char) (b : Bool) :
    lexRun ('\'' :: r) .norm cur b = lexRun r .single cur b := rfl

theorem lexRun_norm_dq (r cur : List Char) (b : Bool) :
    lexRun ('"' :: r) .norm cur b = lexRun r .double cur b := rfl

theorem lexRun_single_close (r cur : List Char) (b : Bool) :
    lexRun ('\'' :: r) .single cur b = lexRun r .norm cur true := rfl

theorem lexRun_single_ch (c : Char) (r cur : List Char) (b : Bool)
    (h : ¬(c = '\'')) :
    lexRun (c :: r) .single cur b = lexRun r .single (c :: cur) b := by
  simp [lexRun, h]

theorem lexRun_double_close (r cur : List Char) (b : Bool) :
    lexRun ('"' :: r) .double cur b = lexRun r .norm cur true := rfl

theorem lexRun_double_sq (r cur : List Char) (b : Bool) :
    lexRun ('\'' :: r) .double cur b = lexRun r .double ('\'' :: cur) b := rfl

/-- Running the splitter through a run of safe characters accumulates
them onto the current word. -/
theorem lexRun_safe_run (u : List Char) (h : u.all isSafeChar = true) :
    ∀ rest cur b, lexRun (u ++ rest) .norm cur b =
      lexRun rest .norm (u.reverse ++ cur) (b || !u.isEmpty) := by
  induction u with
  | nil => intro rest cur b; simp
  | cons c u' ih =>
    intro rest cur b
    simp only [List.all_cons, Bool.and_eq_true] at h
    rw [List.cons_append, lexRun_safe_step c _ _ _ h.1, ih h.2]
    simp [List.append_assoc]

/-- Running the splitter in single-quote mode through the
quote-replacement of `s` followed by a closing quote accumulates exactly
`s` and returns to normal mode. -/
theorem lexRun_quoted_run (s : List Char) :
    ∀ rest cur b, lexRun (quoteReplace s ++ '\'' :: rest) .single cur b =
      lexRun rest .norm (s.reverse ++ cur) true := by
  induction s with
  | nil =>
    intro rest cur b
    simp [quoteReplace, lexRun_single_close]
  | cons c s' ih =>
    intro rest cur b
    by_cases hc : c = '\''
    · subst hc
      rw [show quoteReplace ('\'' :: s') =
            '\'' :: '"' :: '\'' :: '"' :: '\'' :: quoteReplace s' from rfl]
      simp only [List.cons_append]
      rw [lexRun_single_close, lexRun_norm_dq, lexRun_double_sq,
        lexRun_double_close, lexRun_norm_sq, ih]
      simp [List.append_assoc]
    · simp only [quoteReplace, if_neg hc, List.cons_append]
      rw [lexRun_single_ch c _ _ _ hc, ih]
      simp [List.append_assoc]

/-- A non-empty list is not isEmpty. -/
theorem isEmpty_false_of_ne (l : List Char) (h : l ≠ []) :
    l.isEmpty = false := by
  cases l with
  | nil => exact absurd rfl h
  | cons c r => rfl

/-- A non-empty string of safe characters is read back verbatim as one
word. -/
theorem unitFor_safe (u : List Char) (hne : u ≠ [])
    (hsafe : u.all isSafeChar = true) : UnitFor u u := by
  constructor
  · intro rest
    rw [lexRun_safe_run u hsafe (' ' :: rest) [] false]
    rw [isEmpty_false_of_ne u hne]
    rw [show (false || !false) = true from rfl]
    rw [List.append_nil, lexRun_norm_space_started]
    simp
  · have h := lexRun_safe_run u hsafe [] [] false
    rw [List.append_nil] at h
    rw [h, isEmpty_false_of_ne u hne, List.append_nil]
    rw [show (false || !false) = true from rfl, lexRun_nil_started]
    simp

/-- A single-quoted fragment with embedded quotes replaced is read back
as the one original word. -/
theorem unitFor_quote (s : List Char) :
    UnitFor ('\'' :: (quoteReplace s ++ ['\''])) s := by
  constructor
  · intro rest
    rw [List.cons_append, List.append_assoc]
    rw [show ['\''] ++ (' ' :: rest) = '\'' :: ' ' :: rest from rfl]
    rw [lexRun_norm_sq, lexRun_quoted_run s (' ' :: rest) [] false]
    rw [List.append_nil, lexRun_norm_space_started]
    simp
  · rw [lexRun_norm_sq, lexRun_quoted_run s [] [] false]
    rw [List.append_nil, lexRun_nil_started]
    simp

/-- The output of shlex.quote is always read back as exactly the input
word. -/
theorem unitFor_shlexQuote (s : List Char) : UnitFor (shlexQuote s) s := by
  by_cases h0 : s = []
  · subst h0
    exact unitFor_quote []
  · by_cases hs : s.all isSafeChar = true
    · have hq : shlexQuote s = s := by
        rw [shlexQuote, isEmpty_false_of_ne s h0]
        simp [hs]
      rw [hq]
      exact unitFor_safe s h0 hs
    · have hq : shlexQuote s = '\'' :: (quoteReplace s ++ ['\'']) := by
        rw [shlexQuote, isEmpty_false_of_ne s h0]
        simp [hs]
      rw [hq]
      exact unitFor_quote s

/-- Splitting a space-join of units yields exactly the corresponding
words. -/
theorem joinSpace_parse : ∀ (ps ts : List (List Char)),
    List.Forall₂ UnitFor ps ts → ps ≠ [] →
    lexRun (joinSpace ps) .norm [] false = some ts := by
  intro ps ts h
  induction h with
  | nil => intro hne; exact absurd rfl hne
  | @cons u t ps' ts' hu htail ih =>
    intro _
    cases htail with
    | nil => exact hu.2
    | @cons u2 t2 ps'' ts'' hu2 htail2 =>
      rw [show joinSpace (u :: u2 :: ps'') = u ++ ' ' :: joinSpace (u2 :: ps'')
            from rfl]
      rw [hu.1 (joinSpace (u2 :: ps''))]
      rw [ih (by simp)]
      rfl

/-- Decimal digits are safe characters. -/
theorem digitChar_safe (d : Nat) (h : d < 10) :
    isSafeChar (digitChar d) = true := by
  interval_cases d <;> decide

/-- Every character the decimal renderer emits is safe. -/
theorem natCharsAux_safe (fuel n : Nat) :
    (natCharsAux fuel n).all isSafeChar = true := by
  induction fuel generalizing n with
  | zero => rfl
  | succ f ih =>
    rw [natCharsAux]
    split
    · next h => simp [digitChar_safe n h]
    · next h =>
      simp [List.all_append, ih, digitChar_safe (n % 10) (Nat.mod_lt _ (by norm_num))]

theorem natChars_safe (n : Nat) : (natChars n).all isSafeChar = true :=
  natCharsAux_safe _ _

theorem intChars_safe (i : Int) : (intChars i).all isSafeChar = true := by
  rw [intChars]
  split
  · simp [List.all_cons, natChars_safe,
      show isSafeChar '-' = true from by decide]
  · exact natChars_safe _

/-- A safe flag prefix followed by a rendered integer is read back
verbatim as one word. -/
theorem unitFor_numToken (p : List Char) (hp : p ≠ [])
    (hps : p.all isSafeChar = true) (i : Int) :
    UnitFor (p ++ intChars i) (p ++ intChars i) := by
  apply unitFor_safe
  · cases p with
    | nil => exact absurd rfl hp
    | cons c r => simp
  · simp [List.all_append, hps, intChars_safe]

theorem unit_lit_srun : UnitFor "srun".toList "srun".toList :=
  unitFor_safe _ (by decide) (by decide)

theorem unit_lit_pty : UnitFor "--pty".toList "--pty".toList :=
  unitFor_safe _ (by decide) (by decide)

theorem unit_lit_p : UnitFor "-p".toList "-p".toList :=
  unitFor_safe _ (by decide) (by decide)

theorem unit_lit_account : UnitFor "--account".toList "--account".toList :=
  unitFor_safe _ (by decide) (by decide)

theorem unit_lit_time : UnitFor "--time".toList "--time".toList :=
  unitFor_safe _ (by decide) (by decide)

theorem unit_lit_mem : UnitFor "--mem".toList "--mem".toList :=
  unitFor_safe _ (by decide) (by decide)

theorem unit_lit_gpus : UnitFor "--gpus".toList "--gpus".toList :=
  unitFor_safe _ (by decide) (by decide)

theorem unit_ntasksTok (i : Int) :
    UnitFor ("--ntasks=".toList ++ intChars i)
      ("--ntasks=".toList ++ intChars i) :=
  unitFor_numToken _ (by decide) (by decide) i

theorem unit_cpusTok (i : Int) :
    UnitFor ("--cpus-per-task=".toList ++ intChars i)
      ("--cpus-per-task=".toList ++ intChars i) :=
  unitFor_numToken _ (by decide) (by decide) i

/-- An optional flag section and its token counterpart are pointwise
units. -/
theorem forall₂_optFlag (flag v : List Char) (hf : UnitFor flag flag) :
    List.Forall₂ UnitFor (optFlag flag v) (optTok flag v) := by
  by_cases hv : v.isEmpty
  · simp only [optFlag, optTok, if_pos hv]
    exact List.Forall₂.nil
  · simp only [optFlag, optTok, if_neg hv]
    exact List.Forall₂.cons hf
      (List.Forall₂.cons (unitFor_shlexQuote v) List.Forall₂.nil)

/-- The parts of the composed srun command are pointwise units for the
intended words. -/
theorem forall₂_composeParts (cfg : ClusterCfg) (ov : Overrides)
    (interactive : Bool) :
    List.Forall₂ UnitFor (composeSrunParts cfg ov interactive)
      (composeTokens cfg ov interactive) := by
  unfold composeSrunParts composeTokens
  refine List.rel_append (List.rel_append (List.rel_append
    (List.rel_append (List.rel_append ?_ ?_) ?_) ?_) ?_) ?_
  · refine List.Forall₂.cons unit_lit_srun ?_
    cases interactive
    · exact List.Forall₂.nil
    · exact List.Forall₂.cons unit_lit_pty List.Forall₂.nil
  · exact List.Forall₂.cons unit_lit_p
      (List.Forall₂.cons (unitFor_shlexQuote _)
        (List.Forall₂.cons (unit_ntasksTok _)
          (List.Forall₂.cons (unit_cpusTok _) List.Forall₂.nil)))
  · exact forall₂_optFlag _ _ unit_lit_account
  · exact forall₂_optFlag _ _ unit_lit_time
  · exact forall₂_optFlag _ _ unit_lit_mem
  · exact forall₂_optFlag _ _ unit_lit_gpus

/-! ## Claim theorems -/

/-- C1: for every profile and overrides pair, the command string produced
by the srun composer parses back, under POSIX shell word splitting, to
exactly the intended words with every user-originated field value (in
particular any value containing spaces, conjunctions, dollar signs or
quotes) recovered as a single literal argument. -/
theorem claim1_srun_quoting_roundtrip (cfg : ClusterCfg) (ov : Overrides)
    (interactive : Bool) :
    shellParse (composeSrun cfg ov interactive) =
      some (composeTokens cfg ov interactive) := by
  unfold shellParse composeSrun
  refine joinSpace_parse _ _ (forall₂_composeParts cfg ov interactive) ?_
  unfold composeSrunParts
  simp only [List.cons_append]
  exact List.cons_ne_nil _ _

/-- Truthiness of a present non-empty string. -/
theorem truthy_some (l : List Char) (h : l ≠ []) : truthyS (some l) = true := by
  cases l with
  | nil => exact absurd rfl h
  | cons c r => rfl

/-- C2: per-field precedence of the srun composer. A truthy override wins
over the profile default; an absent override falls back to the profile
default; when an optional field is absent on both sides its flag section
is empty, and the composed parts are exactly the mandatory prefix plus
the optional flag sections, so an empty section means the flag never
occurs. -/
theorem claim2_override_precedence (cfg : ClusterCfg) (ov : Overrides)
    (interactive : Bool) :
    (∀ p, ov.partition = some p → p ≠ [] → effPartition cfg ov = p) ∧
    (ov.partition = none → effPartition cfg ov = cfg.default_partition) ∧
    (∀ n, ov.ntasks = some n → n ≠ 0 → effNtasks cfg ov = n) ∧
    (ov.ntasks = none → effNtasks cfg ov = cfg.default_ntasks) ∧
    (∀ n, ov.cpus_per_task = some n → n ≠ 0 → effCpus cfg ov = n) ∧
    (ov.cpus_per_task = none → effCpus cfg ov = cfg.default_cpus_per_task) ∧
    (∀ a, ov.account = some a → a ≠ [] → effAccount cfg ov = a) ∧
    (∀ a, ov.account = none → cfg.account = some a → a ≠ [] →
      effAccount cfg ov = a) ∧
    (ov.account = none → cfg.account = none → effAccount cfg ov = [] ∧
      optFlag "--account".toList (effAccount cfg ov) = []) ∧
    (∀ t, ov.time = some t → t ≠ [] → effTime cfg ov = t) ∧
    (∀ t, ov.time = none → cfg.default_time = some t → t ≠ [] →
      effTime cfg ov = t) ∧
    (ov.time = none → cfg.default_time = none → effTime cfg ov = [] ∧
      optFlag "--time".toList (effTime cfg ov) = []) ∧
    (∀ m, ov.mem = some m → m ≠ [] → effMem cfg ov = m) ∧
    (∀ m, ov.mem = none → cfg.mem = some m → m ≠ [] → effMem cfg ov = m) ∧
    (ov.mem = none → cfg.mem = none → effMem cfg ov = [] ∧
      optFlag "--mem".toList (effMem cfg ov) = []) ∧
    (∀ g, ov.gpus = some g → g ≠ [] → effGpus cfg ov = g) ∧
    (∀ g, ov.gpus = none → cfg.gpus = some g → g ≠ [] →
      effGpus cfg ov = g) ∧
    (ov.gpus = none → cfg.gpus = none → effGpus cfg ov = [] ∧
      optFlag "--gpus".toList (effGpus cfg ov) = []) ∧
    composeSrunParts cfg ov interactive =
      ("srun".toList :: (if interactive then ["--pty".toList] else []))
      ++ ["-p".toList, shlexQuote (effPartition cfg ov),
          "--ntasks=".toList ++ intChars (effNtasks cfg ov),
          "--cpus-per-task=".toList ++ intChars (effCpus cfg ov)]
      ++ optFlag "--account".toList (effAccount cfg ov)
      ++ optFlag "--time".toList (effTime cfg ov)
      ++ optFlag "--mem".toList (effMem cfg ov)
      ++ optFlag "--gpus".toList (effGpus cfg ov) := by
  refine ⟨?_, ?_, ?_, ?_, ?_, ?_, ?_, ?_, ?_, ?_, ?_, ?_, ?_, ?_, ?_, ?_,
    ?_, ?_, rfl⟩
  · intro p hp hne
    simp [effPartition, hp, truthy_some p hne]
  · intro h
    simp [effPartition, h, truthyS]
  · intro n hn hne
    simp [effNtasks, hn, hne]
  · intro h
    simp [effNtasks, h]
  · intro n hn hne
    simp [effCpus, hn, hne]
  · intro h
    simp [effCpus, h]
  · intro a ha hne
    simp [effAccount, ha, truthy_some a hne]
  · intro a hov hcfg hne
    simp [effAccount, hov, hcfg, truthyS, truthy_some a hne]
  · intro h1 h2
    have he : effAccount cfg ov = [] := by
      simp [effAccount, h1, h2, truthyS]
    exact ⟨he, by simp [optFlag, he]⟩
  · intro t ht hne
    simp [effTime, ht, truthy_some t hne]
  · intro t hov hcfg hne
    simp [effTime, hov, hcfg, truthyS, truthy_some t hne]
  · intro h1 h2
    have he : effTime cfg ov = [] := by
      simp [effTime, h1, h2, truthyS]
    exact ⟨he, by simp [optFlag, he]⟩
  · intro m hm hne
    simp [effMem, hm, truthy_some m hne]
  · intro m hov hcfg hne
    simp [effMem, hov, hcfg, truthyS, truthy_some m hne]
  · intro h1 h2
    have he : effMem cfg ov = [] := by
      simp [effMem, h1, h2, truthyS]
    exact ⟨he, by simp [optFlag, he]⟩
  · intro g hg hne
    simp [effGpus, hg, truthy_some g hne]
  · intro g hov hcfg hne
    simp [effGpus, hov, hcfg, truthyS, truthy_some g hne]
  · intro h1 h2
    have he : effGpus cfg ov = [] := by
      simp [effGpus, h1, h2, truthyS]
    exact ⟨he, by simp [optFlag, he]⟩

/-- Witness for C2 at concrete profiles: every override wins where set,
defaults apply where not, and doubly-absent optional fields contribute no
flag. -/
theorem claim2_witness :
    effPartition cfgW ovA = "B".toList ∧
    effPartition cfgW emptyOverrides = "A".toList ∧
    effNtasks cfgW ovA = 4 ∧ effNtasks cfgW emptyOverrides = 1 ∧
    effCpus cfgW ovA = 5 ∧ effCpus cfgW emptyOverrides = 2 ∧
    effAccount cfgW ovA = "ov".toList ∧
    effAccount cfgW emptyOverrides = "acc".toList ∧
    effTime cfgW ovA = "01:00".toList ∧
    (effTime cfgW emptyOverrides = [] ∧
      optFlag "--time".toList (effTime cfgW emptyOverrides) = []) ∧
    effMem cfgW ovA = "16G".toList ∧
    effMem cfgW emptyOverrides = "8G".toList ∧
    effGpus cfgW ovA = "gpu:1".toList ∧
    (effGpus cfgW emptyOverrides = [] ∧
      optFlag "--gpus".toList (effGpus cfgW emptyOverrides) = []) := by
  obtain ⟨h1, -, h3, -, h5, -, h7, -, -, h10, -, -, h13, -, -, h16, -, -, -⟩ :=
    claim2_override_precedence cfgW ovA false
  obtain ⟨-, g2, -, g4, -, g6, -, g8, -, -, -, g12, -, g14, -, -, -, g18, -⟩ :=
    claim2_override_precedence cfgW emptyOverrides false
  exact ⟨h1 _ rfl (by decide), g2 rfl, h3 _ rfl (by decide), g4 rfl,
    h5 _ rfl (by decide), g6 rfl, h7 _ rfl (by decide),
    g8 _ rfl rfl (by decide), h10 _ rfl (by decide), g12 rfl rfl,
    h13 _ rfl (by decide), g14 _ rfl rfl (by decide),
    h16 _ rfl (by decide), g18 rfl rfl⟩

/-- C3: the composed allocation command lists its parts in the fixed
order srun, pty flag (interactive only), partition, task count,
cpus-per-task, then optional account, time, memory, gpus; and for the
end-to-end profile (partition cpu, one task, two cpus, no overrides) the
non-interactive composition of the payload echo hi is exactly
srun -p cpu --ntasks=1 --cpus-per-task=2 echo hi, handed to the transport
without a pseudo-terminal flag. -/
theorem claim3_fixed_order_end_to_end :
    (∀ (cfg : ClusterCfg) (ov : Overrides) (interactive : Bool),
      composeSrunParts cfg ov interactive =
        ("srun".toList :: (if interactive then ["--pty".toList] else []))
        ++ ["-p".toList, shlexQuote (effPartition cfg ov),
            "--ntasks=".toList ++ intChars (effNtasks cfg ov),
            "--cpus-per-task=".toList ++ intChars (effCpus cfg ov)]
        ++ optFlag "--account".toList (effAccount cfg ov)
        ++ optFlag "--time".toList (effTime cfg ov)
        ++ optFlag "--mem".toList (effMem cfg ov)
        ++ optFlag "--gpus".toList (effGpus cfg ov)) ∧
    remoteRunCmd cfgEnd "echo hi".toList emptyOverrides none =
      "srun -p cpu --ntasks=1 --cpus-per-task=2 echo hi".toList ∧
    remoteRunArgv cfgEnd "echo hi".toList emptyOverrides none
        id (fun _ => false) =
      ["ssh".toList, "-o".toList, "BatchMode=no".toList, "-o".toList,
       "PreferredAuthentications=publickey,keyboard-interactive,password".toList,
       "u@h".toList,
       "bash -lc ".toList ++ '\'' ::
         ("srun -p cpu --ntasks=1 --cpus-per-task=2 echo hi".toList
           ++ ['\''])] := by
  refine ⟨fun cfg ov interactive => rfl, by decide, by decide⟩

/-- C6: the transport builder uses the identity flag plus batch mode
exactly when an identity file is configured and exists on disk, and
password-capable negotiation otherwise; in both shapes the
pseudo-terminal flag appears exactly when a pty is requested. -/
theorem claim6_transport_auth (host user : List Char)
    (identity : Option (List Char)) (pty : Bool)
    (expandUser : List Char → List Char) (fileExists : List Char → Bool) :
    (truthyS identity = true →
      fileExists (expandUser (identity.getD [])) = true →
      buildSshBase host user identity pty expandUser fileExists =
        "ssh".toList :: "-i".toList :: expandUser (identity.getD []) ::
          "-o".toList :: "BatchMode=yes".toList ::
          ((if pty then ["-tt".toList] else []) ++ [user ++ '@' :: host])) ∧
    (truthyS identity = false ∨
        fileExists (expandUser (identity.getD [])) = false →
      buildSshBase host user identity pty expandUser fileExists =
        "ssh".toList :: "-o".toList :: "BatchMode=no".toList :: "-o".toList ::
          "PreferredAuthentications=publickey,keyboard-interactive,password".toList ::
          ((if pty then ["-tt".toList] else []) ++ [user ++ '@' :: host])) := by
  constructor
  · intro h1 h2
    simp [buildSshBase, h1, h2]
  · intro h
    rcases h with h | h
    · simp [buildSshBase, h]
    · simp [buildSshBase, h, Bool.and_false]

/-- Witness for C6: an existing key forces batch mode, a missing key or
no configured key falls back to password-capable mode, and the pty flag
follows the request. -/
theorem claim6_witness :
    buildSshBase "h".toList "u".toList (some "k".toList) true id
        (fun _ => true) =
      ["ssh".toList, "-i".toList, "k".toList, "-o".toList,
       "BatchMode=yes".toList, "-tt".toList, "u@h".toList] ∧
    buildSshBase "h".toList "u".toList (some "k".toList) false id
        (fun _ => false) =
      ["ssh".toList, "-o".toList, "BatchMode=no".toList, "-o".toList,
       "PreferredAuthentications=publickey,keyboard-interactive,password".toList,
       "u@h".toList] ∧
    buildSshBase "h".toList "u".toList none false id (fun _ => true) =
      ["ssh".toList, "-o".toList, "BatchMode=no".toList, "-o".toList,
       "PreferredAuthentications=publickey,keyboard-interactive,password".toList,
       "u@h".toList] := by
  refine ⟨?_, ?_, ?_⟩
  · have h := (claim6_transport_auth "h".toList "u".toList
      (some "k".toList) true id (fun _ => true)).1 rfl rfl
    exact h.trans (by decide)
  · have h := (claim6_transport_auth "h".toList "u".toList
      (some "k".toList) false id (fun _ => false)).2 (Or.inr rfl)
    exact h.trans (by decide)
  · have h := (claim6_transport_auth "h".toList "u".toList
      none false id (fun _ => true)).2 (Or.inl rfl)
    exact h.trans (by decide)

/-- C8: resolution order of the configuration source: a truthy
environment value wins outright (the later candidates are not even
consulted, so the result is independent of the existence test), else the
current-directory candidate wins when it exists, else the file next to
the program is used. -/
theorem claim8_config_path (envVar : Option (List Char))
    (expand resolve : List Char → List Char) (cwd scriptFile : List Char)
    (pathExists : List Char → Bool) :
    (∀ e, envVar = some e → e ≠ [] →
      clustersYamlPath envVar expand resolve cwd scriptFile pathExists =
          resolve (expand e) ∧
        ∀ pe2 : List Char → Bool,
          clustersYamlPath envVar expand resolve cwd scriptFile pathExists =
            clustersYamlPath envVar expand resolve cwd scriptFile pe2) ∧
    (envVar = none ∨ envVar = some [] →
      (pathExists (cwd ++ '/' :: "clusters.yml".toList) = true →
        clustersYamlPath envVar expand resolve cwd scriptFile pathExists =
          resolve (cwd ++ '/' :: "clusters.yml".toList)) ∧
      (pathExists (cwd ++ '/' :: "clusters.yml".toList) = false →
        clustersYamlPath envVar expand resolve cwd scriptFile pathExists =
          withName (resolve scriptFile) "clusters.yml".toList)) := by
  constructor
  · intro e he hne
    subst he
    constructor
    · simp [clustersYamlPath, isEmpty_false_of_ne e hne]
    · intro pe2
      simp [clustersYamlPath, isEmpty_false_of_ne e hne]
  · intro h
    have key : clustersYamlPath envVar expand resolve cwd scriptFile
        pathExists =
        if pathExists (cwd ++ '/' :: "clusters.yml".toList) then
          resolve (cwd ++ '/' :: "clusters.yml".toList)
        else withName (resolve scriptFile) "clusters.yml".toList := by
      rcases h with h | h <;> subst h <;> rfl
    constructor
    · intro hex
      rw [key, if_pos hex]
    · intro hex
      rw [key, if_neg (by rw [hex]; simp)]

/-- Witness for C8 at concrete paths: the environment value wins, then
the current-directory file, then the program-adjacent file. -/
theorem claim8_witness :
    clustersYamlPath (some "E".toList) id id "d".toList "s/x".toList
        (fun _ => true) = "E".toList ∧
    clustersYamlPath none id id "d".toList "s/x".toList (fun _ => true) =
      "d/clusters.yml".toList ∧
    clustersYamlPath none id id "d".toList "s/x".toList (fun _ => false) =
      "s/clusters.yml".toList := by
  refine ⟨?_, ?_, ?_⟩
  · have h := ((claim8_config_path (some "E".toList) id id "d".toList
      "s/x".toList (fun _ => true)).1 _ rfl (by decide)).1
    exact h.trans (by decide)
  · have h := ((claim8_config_path none id id "d".toList "s/x".toList
      (fun _ => true)).2 (Or.inl rfl)).1 rfl
    exact h.trans (by decide)
  · have h := ((claim8_config_path none id id "d".toList "s/x".toList
      (fun _ => false)).2 (Or.inl rfl)).2 rfl
    exact h.trans (by decide)

/-- C9: an absent or empty pre-commands sequence contributes the empty
string to the remote command (no conjunction step at all), while a
non-empty sequence appears joined by the all-must-succeed conjunction,
in order, before the scheduler invocation. -/
theorem claim9_pre_commands (cfg : ClusterCfg) (command : List Char)
    (ov : Overrides) (wd : Option (List Char)) :
    prependPreCommands none = [] ∧
    prependPreCommands (some []) = [] ∧
    (∀ p ps, prependPreCommands (some (p :: ps)) =
      joinAmp (p :: ps) ++ ampSep) ∧
    (cfg.pre_commands = none ∨ cfg.pre_commands = some [] →
      remoteRunCmd cfg command ov wd =
        cdString wd ++ (composeSrun cfg ov false ++ ' ' :: command)) ∧
    (∀ p ps, cfg.pre_commands = some (p :: ps) →
      remoteRunCmd cfg command ov wd =
        cdString wd ++ ((joinAmp (p :: ps) ++ ampSep) ++
          (composeSrun cfg ov false ++ ' ' :: command))) := by
  refine ⟨rfl, rfl, fun p ps => rfl, ?_, ?_⟩
  · intro h
    rcases h with h | h <;> simp [remoteRunCmd, h, prependPreCommands]
  · intro p ps h
    rw [remoteRunCmd, h]
    rw [show prependPreCommands (some (p :: ps)) =
      joinAmp (p :: ps) ++ ampSep from rfl]
    simp [List.append_assoc]

/-- Witness for C9: without pre-commands the end-to-end remote command
has no conjunction, with two pre-commands they precede srun joined by
the conjunction. -/
theorem claim9_witness :
    remoteRunCmd cfgEnd "echo hi".toList emptyOverrides none =
      "srun -p cpu --ntasks=1 --cpus-per-task=2 echo hi".toList ∧
    remoteRunCmd cfgPre "echo hi".toList emptyOverrides none =
      ("module load x && source env && " ++
        "srun -p cpu --ntasks=1 --cpus-per-task=2 echo hi").toList := by
  constructor
  · have h := (claim9_pre_commands cfgEnd "echo hi".toList emptyOverrides
      none).2.2.2.1 (Or.inl rfl)
    exact h.trans (by decide)
  · have h := (claim9_pre_commands cfgPre "echo hi".toList emptyOverrides
      none).2.2.2.2 "module load x".toList ["source env".toList] rfl
    exact h.trans (by decide)

/-- C4: profile loading fails with configNotFound when the source is
absent, profileNotFound when the name is not a key, invalidProfile when a
mandatory field is missing or empty or a numeric field does not parse;
and on any load failure the dispatcher exits with code 1 without reaching
composition or transport. -/
theorem claim4_profile_load (expand : List Char → List Char)
    (name : List Char) :
    loadConfig expand none name = .error .configNotFound ∧
    (∀ clusters, lookupAssoc clusters name = none →
      loadConfig expand (some clusters) name = .error .profileNotFound) ∧
    (∀ clusters raw0, lookupAssoc clusters name = some raw0 →
      requiredKeys.any (fun k => fieldMissing (expandRaw expand raw0) k) =
        true →
      loadConfig expand (some clusters) name = .error .invalidProfile) ∧
    (∀ clusters raw0, lookupAssoc clusters name = some raw0 →
      (pyIntOfYVal ((lookupAssoc (expandRaw expand raw0)
          "default_ntasks".toList).getD .nullv) = none ∨
        pyIntOfYVal ((lookupAssoc (expandRaw expand raw0)
          "default_cpus_per_task".toList).getD .nullv) = none) →
      loadConfig expand (some clusters) name = .error .invalidProfile) ∧
    (∀ src a e, a.cluster = some name →
      loadConfig expand src name = .error e →
      mainModel expand src a = .exit 1) := by
  refine ⟨rfl, ?_, ?_, ?_, ?_⟩
  · intro clusters h
    simp [loadConfig, h]
  · intro clusters raw0 h hm
    simp [loadConfig, h, hm]
  · intro clusters raw0 h hint
    simp only [loadConfig, h]
    split
    · rfl
    · cases h1 : pyIntOfYVal ((lookupAssoc (expandRaw expand raw0)
        "default_ntasks".toList).getD .nullv) with
      | none => simp [h1]
      | some n1 =>
        cases h2 : pyIntOfYVal ((lookupAssoc (expandRaw expand raw0)
          "default_cpus_per_task".toList).getD .nullv) with
        | none => simp [h1, h2]
        | some n2 =>
          rcases hint with hint | hint
          · rw [h1] at hint
            exact absurd hint (by simp)
          · rw [h2] at hint
            exact absurd hint (by simp)
  · intro src a e hc hl
    simp [mainModel, hc, hl]

/-- Witness for C4: an absent source, an unknown name, a missing host, a
non-numeric ntasks, and the resulting exit code 1 of the dispatcher. -/
theorem claim4_witness :
    loadConfig id none "c".toList = .error .configNotFound ∧
    loadConfig id (some []) "c".toList = .error .profileNotFound ∧
    loadConfig id (some [("c".toList, rawNoHost)]) "c".toList =
      .error .invalidProfile ∧
    loadConfig id (some [("c".toList, rawBadInt)]) "c".toList =
      .error .invalidProfile ∧
    mainModel id none { argsBase with cluster := some "c".toList } =
      .exit 1 := by
  have t := claim4_profile_load id "c".toList
  exact ⟨t.1, t.2.1 [] rfl, t.2.2.1 _ rawNoHost rfl (by decide),
    t.2.2.2.1 _ rawBadInt rfl (Or.inl (by decide)),
    t.2.2.2.2 none _ .configNotFound rfl t.1⟩

/-- C5 counterexample: with both the interactive-app and submit-app modes
selected but the configuration source absent, the process exits with
code 1, not 2 — the profile load (and its failure path) runs before the
mutual-exclusion check. -/
theorem claim5_counterexample :
    mainModel id none argsBoth = .exit 1 ∧
    ¬ mainModel id none argsBoth = .exit 2 := by
  constructor
  · rfl
  · intro h
    exact absurd ((rfl : mainModel id none argsBoth = .exit 1).symm.trans h)
      (by decide)

/-- C5 amended: when a cluster is selected and its profile loads
successfully, selecting both the interactive-app and the submit-app mode
exits with code 2 and no transport call is made. -/
theorem claim5_mutual_exclusion (expand : List Char → List Char)
    (src : Option (List (List Char × RawCfg))) (a : Args)
    (cname : List Char) (cfg : ClusterCfg) (h1 : a.cluster = some cname)
    (h2 : loadConfig expand src cname = .ok cfg)
    (h3 : a.interactive_app = true) (h4 : a.submit_app = true) :
    mainModel expand src a = .exit 2 := by
  simp [mainModel, h1, h2, h3, h4]

/-- Witness for C5 (amended): both modes with a loadable profile exit
with code 2. -/
theorem claim5_witness : mainModel id srcOk argsBoth = .exit 2 :=
  claim5_mutual_exclusion id srcOk argsBoth "c".toList cfgOk rfl rfl rfl rfl

/-- C7 amended: a missing local executable is caught and yields exit
code 127, but on every remote shape a missing transport executable
raises an uncaught error and the process exits with code 1, not 127. -/
theorem claim7_transport_missing (avail : List Char → Bool)
    (childExit : Outcome → Int) :
    (∀ argv, avail (argv.headD []) = false →
      processExit avail childExit (.localExec argv) = 127) ∧
    (avail "ssh".toList = false →
      (∀ cfg ov port model app wd,
        processExit avail childExit
          (.interactiveApp cfg ov port model app wd) = 1) ∧
      (∀ cfg ov port model app wd,
        processExit avail childExit
          (.submitApp cfg ov port model app wd) = 1) ∧
      (∀ cfg ov, processExit avail childExit
        (.interactiveShell cfg ov) = 1) ∧
      (∀ cfg cmd ov wd, processExit avail childExit
        (.remotePlain cfg cmd ov wd) = 1)) := by
  constructor
  · intro argv h
    show (if avail (argv.headD []) = true then
      childExit (.localExec argv) else 127) = 127
    rw [if_neg (by rw [h]; simp)]
  · intro h
    have hn : ¬ avail "ssh".toList = true := by rw [h]; simp
    refine ⟨?_, ?_, ?_, ?_⟩
    · intro cfg ov port model app wd
      show (if avail "ssh".toList = true then
        childExit (.interactiveApp cfg ov port model app wd) else 1) = 1
      rw [if_neg hn]
    · intro cfg ov port model app wd
      show (if avail "ssh".toList = true then
        childExit (.submitApp cfg ov port model app wd) else 1) = 1
      rw [if_neg hn]
    · intro cfg ov
      show (if avail "ssh".toList = true then
        childExit (.interactiveShell cfg ov) else 1) = 1
      rw [if_neg hn]
    · intro cfg cmd ov wd
      show (if avail "ssh".toList = true then
        childExit (.remotePlain cfg cmd ov wd) else 1) = 1
      rw [if_neg hn]

/-- C7 counterexample: a full remote invocation (profile loaded, plain
command) with no executable available terminates with exit code 1, not
the claimed 127. -/
theorem claim7_counterexample :
    processExit (fun _ => false) (fun _ => 0)
      (mainModel id srcOk argsEcho) = 1 ∧
    ¬ processExit (fun _ => false) (fun _ => 0)
      (mainModel id srcOk argsEcho) = 127 := by
  constructor
  · rfl
  · intro h
    exact absurd ((rfl : processExit (fun _ => false) (fun _ => 0)
      (mainModel id srcOk argsEcho) = 1).symm.trans h) (by decide)

/-- Witness for C7 (amended): the local path returns 127 when its
executable is missing, the remote path returns 1 when ssh is missing. -/
theorem claim7_witness :
    processExit (fun _ => false) (fun _ => 0)
      (.localExec ["echo".toList]) = 127 ∧
    processExit (fun _ => false) (fun _ => 0)
      (.remotePlain cfgOk "x".toList emptyOverrides none) = 1 :=
  ⟨(claim7_transport_missing _ _).1 _ rfl,
    ((claim7_transport_missing _ _).2 rfl).2.2.2 _ _ _ _⟩

/-- C10: an override that is present but empty (or 0 for the numeric
fields) is treated by the srun composer and by the batch-header builder
exactly as if it were absent, and an optional field whose resolved value
is empty contributes no flag and no directive line. -/
theorem claim10_falsy_overrides (cfg : ClusterCfg) (ov : Overrides)
    (interactive : Bool) :
    (composeSrunParts cfg { ov with partition := some [] } interactive =
        composeSrunParts cfg { ov with partition := none } interactive ∧
      sbatchHeader cfg { ov with partition := some [] } =
        sbatchHeader cfg { ov with partition := none }) ∧
    (composeSrunParts cfg { ov with ntasks := some 0 } interactive =
        composeSrunParts cfg { ov with ntasks := none } interactive ∧
      sbatchHeader cfg { ov with ntasks := some 0 } =
        sbatchHeader cfg { ov with ntasks := none }) ∧
    (composeSrunParts cfg { ov with cpus_per_task := some 0 } interactive =
        composeSrunParts cfg { ov with cpus_per_task := none } interactive ∧
      sbatchHeader cfg { ov with cpus_per_task := some 0 } =
        sbatchHeader cfg { ov with cpus_per_task := none }) ∧
    (composeSrunParts cfg { ov with time := some [] } interactive =
        composeSrunParts cfg { ov with time := none } interactive ∧
      sbatchHeader cfg { ov with time := some [] } =
        sbatchHeader cfg { ov with time := none }) ∧
    (composeSrunParts cfg { ov with account := some [] } interactive =
        composeSrunParts cfg { ov with account := none } interactive ∧
      sbatchHeader cfg { ov with account := some [] } =
        sbatchHeader cfg { ov with account := none }) ∧
    (composeSrunParts cfg { ov with mem := some [] } interactive =
        composeSrunParts cfg { ov with mem := none } interactive ∧
      sbatchHeader cfg { ov with mem := some [] } =
        sbatchHeader cfg { ov with mem := none }) ∧
    (composeSrunParts cfg { ov with gpus := some [] } interactive =
        composeSrunParts cfg { ov with gpus := none } interactive ∧
      sbatchHeader cfg { ov with gpus := some [] } =
        sbatchHeader cfg { ov with gpus := none }) ∧
    (effAccount cfg ov = [] →
      optFlag "--account".toList (effAccount cfg ov) = [] ∧
      optHeader "#SBATCH --account=".toList (effAccount cfg ov) = []) ∧
    (effTime cfg ov = [] →
      optFlag "--time".toList (effTime cfg ov) = [] ∧
      optHeader "#SBATCH --time=".toList (effTime cfg ov) = []) ∧
    (effMem cfg ov = [] →
      optFlag "--mem".toList (effMem cfg ov) = [] ∧
      optHeader "#SBATCH --mem=".toList (effMem cfg ov) = []) ∧
    (effGpus cfg ov = [] →
      optFlag "--gpus".toList (effGpus cfg ov) = [] ∧
      optHeader "#SBATCH --gpus=".toList (effGpus cfg ov) = []) := by
  refine ⟨⟨rfl, rfl⟩, ⟨rfl, rfl⟩, ⟨rfl, rfl⟩, ⟨rfl, rfl⟩, ⟨rfl, rfl⟩,
    ⟨rfl, rfl⟩, ⟨rfl, rfl⟩, ?_, ?_, ?_, ?_⟩ <;>
    intro h <;> exact ⟨by simp [optFlag, h], by simp [optHeader, h]⟩

/-- Witness for C10: on the end-to-end profile every optional field
resolves empty and contributes neither a flag nor a directive line. -/
theorem claim10_witness :
    (optFlag "--account".toList (effAccount cfgEnd emptyOverrides) = [] ∧
      optHeader "#SBATCH --account=".toList
        (effAccount cfgEnd emptyOverrides) = []) ∧
    (optFlag "--time".toList (effTime cfgEnd emptyOverrides) = [] ∧
      optHeader "#SBATCH --time=".toList
        (effTime cfgEnd emptyOverrides) = []) ∧
    (optFlag "--mem".toList (effMem cfgEnd emptyOverrides) = [] ∧
      optHeader "#SBATCH --mem=".toList
        (effMem cfgEnd emptyOverrides) = []) ∧
    (optFlag "--gpus".toList (effGpus cfgEnd emptyOverrides) = [] ∧
      optHeader "#SBATCH --gpus=".toList
        (effGpus cfgEnd emptyOverrides) = []) := by
  have t := claim10_falsy_overrides cfgEnd emptyOverrides false
  exact ⟨t.2.2.2.2.2.2.2.1 rfl, t.2.2.2.2.2.2.2.2.1 rfl,
    t.2.2.2.2.2.2.2.2.2.1 rfl, t.2.2.2.2.2.2.2.2.2.2 rfl⟩
